import Mathlib

/-!
Shallow embedding of the ecommerce page-testing tool.

The embedding models the four core subsystems of the tool:
the error signal classifier (src/modules/errorDetector.js), the
structural product-page validator with its selector-fallback resolution
loops (src/modules/productPageTester.js), the image load auditor
(src/modules/imageValidator.js), and the per-page verdict aggregation of
the runner (src/runner.js).  Browser interactions are abstracted as
total functions supplied by an abstract page value; JavaScript numbers
are modelled as Nat or Int, JavaScript strings as String, fallible
browser calls as explicit outcome types.
-/

/-- True when the first character list starts the second one. -/
def matchesHere : List Char → List Char → Bool
  | [], _ => true
  | _ :: _, [] => false
  | a :: as, b :: bs => a == b && matchesHere as bs

/-- True when the pattern occurs somewhere inside the character list. -/
def occursIn (pat : List Char) : List Char → Bool
  | [] => matchesHere pat []
  | b :: rest => matchesHere pat (b :: rest) || occursIn pat rest

/-- Substring containment, modelling the JavaScript String.includes test. -/
def containsStr (s pat : String) : Bool :=
  occursIn pat.data s.data

/-- Character-wise lowercasing, modelling the JavaScript toLowerCase call. -/
def lowerStr (s : String) : String :=
  ⟨s.data.map Char.toLower⟩

/-- Whitespace trimming at both ends, modelling the JavaScript trim call. -/
def trimStr (s : String) : String :=
  ⟨((s.data.dropWhile Char.isWhitespace).reverse.dropWhile
      Char.isWhitespace).reverse⟩

/-- True when the string starts with the pattern, modelling the JavaScript
startsWith test. -/
def startsWithStr (s pat : String) : Bool :=
  matchesHere pat.data s.data

namespace ErrorDetector

/-- One entry of the console-error list.  Entries produced by the console
listener carry ctype "console_error", entries produced by the pageerror
listener carry ctype "page_error"; severity is absent until analyzeErrors
re-tags the entry. -/
structure ConsoleErr where
  ctype : String
  message : String
  severity : Option String := none
deriving DecidableEq

/-- One entry of the network-failure or resource-failure lists; severity
is absent for failures recorded by the requestfailed listener. -/
structure NetFail where
  url : String
  severity : Option String := none
deriving DecidableEq

/-- The mutable results object of the ErrorDetector class. -/
structure ErrState where
  passed : Bool := true
  consoleErrors : List ConsoleErr := []
  networkFailures : List NetFail := []
  resourceFailures : List NetFail := []
  corsErrors : List NetFail := []
  performanceWarnings : List String := []
  totalErrors : Nat := 0
  totalWarnings : Nat := 0
deriving DecidableEq

/-- The errorTolerance block of the configuration. -/
structure Tolerance where
  critical : Nat
  warning : Nat
deriving DecidableEq

/-- Console listener, branch for messages of type error. -/
def onConsoleError (message : String) (s : ErrState) : ErrState :=
  { s with
      consoleErrors := s.consoleErrors ++
        [{ ctype := "console_error", message := message }],
      totalErrors := s.totalErrors + 1 }

/-- Console listener, branch for messages of type warning. -/
def onConsoleWarning (s : ErrState) : ErrState :=
  { s with totalWarnings := s.totalWarnings + 1 }

/-- Listener for uncaught in-page exceptions (the pageerror event): the
exception message is appended to the same consoleErrors list. -/
def onPageError (message : String) (s : ErrState) : ErrState :=
  { s with
      consoleErrors := s.consoleErrors ++
        [{ ctype := "page_error", message := message }],
      totalErrors := s.totalErrors + 1 }

/-- The benign-noise substrings filtered out by analyzeErrors. -/
def ignorablePatterns : List String :=
  ["analytics", "google-analytics", "facebook", "advertising", "adblock",
   "tracking", "pixel"]

/-- True when the lowercased message contains one of the benign substrings. -/
def isIgnorable (message : String) : Bool :=
  ignorablePatterns.any (fun pattern => containsStr (lowerStr message) pattern)

/-- Severity re-tagging of a console error message. -/
def classifySeverity (message : String) : String :=
  let m := lowerStr message
  if containsStr m "uncaught" || containsStr m "syntax error" ||
      containsStr m "reference error" || containsStr m "type error" then
    "critical"
  else
    "warning"

/-- The analyzeErrors pass over the console-error list: noise filtering
followed by severity re-tagging. -/
def analyzeErrors (errors : List ConsoleErr) : List ConsoleErr :=
  (errors.filter (fun e => !(isIgnorable e.message))).map
    (fun e => { e with severity := some (classifySeverity e.message) })

/-- The checkErrorTolerance verdict over a finalized state. -/
def checkErrorTolerance (s : ErrState) (tol : Tolerance) : Bool :=
  let criticalErrors :=
    (s.consoleErrors.filter (fun e => e.severity == some "critical")).length
  let criticalNetworkFailures :=
    (s.networkFailures.filter (fun f => f.severity == some "critical")).length
  let criticalResourceFailures :=
    (s.resourceFailures.filter (fun f => f.severity == some "critical")).length
  let totalCritical :=
    criticalErrors + criticalNetworkFailures + criticalResourceFailures
  if totalCritical > tol.critical then false
  else if s.totalWarnings > tol.warning then false
  else true

/-- The checkPerformanceMetrics pass: records a slow-load warning when the
sampled total load time exceeds 5000 ms. -/
def checkPerformanceMetrics (loadComplete : Int) (s : ErrState) : ErrState :=
  if loadComplete > 5000 then
    { s with performanceWarnings := s.performanceWarnings ++ ["slow_load"] }
  else s

/-- The detect method: performance sampling, then error analysis, then the
tolerance verdict. -/
def detect (loadComplete : Int) (tol : Tolerance) (s : ErrState) : ErrState :=
  let s1 := checkPerformanceMetrics loadComplete s
  let s2 := { s1 with consoleErrors := analyzeErrors s1.consoleErrors }
  { s2 with passed := checkErrorTolerance s2 tol }

end ErrorDetector

namespace ProductPageTester

/-- Data extracted from a DOM node matched by one candidate selector:
trimmed-at-read text content (absent when textContent is null), bounding
box visibility and the disabled flag. -/
structure Elem where
  text : Option String := none
  visible : Bool := true
  disabled : Bool := false
deriving DecidableEq

/-- Outcome of querying the page with one candidate selector: the query
may throw, match nothing, or match a node. -/
inductive QueryRes where
  | qthrow : QueryRes
  | qnone : QueryRes
  | qfound : Elem → QueryRes
deriving DecidableEq

/-- Outcome of a query-all call: it may throw or return a match count. -/
inductive QueryAllRes where
  | qthrow : QueryAllRes
  | qcount : Nat → QueryAllRes
deriving DecidableEq

/-- Abstract page handle used by the structural validator: per-selector
query outcomes, the document title and the meta description content, and
whether the stabilization wait raised a warning. -/
structure PPage where
  q : String → QueryRes
  qAll : String → QueryAllRes
  pageTitle : String
  metaDescription : Option String
  loadWarning : Bool

/-- Content predicate of the title loop: truthy text of positive length. -/
def titlePred (t : String) : Bool :=
  !t.isEmpty && t.length > 0

/-- Content predicate of the price loop: truthy text containing a currency
symbol or a digit. -/
def pricePred (t : String) : Bool :=
  !t.isEmpty &&
    t.toList.any (fun c =>
      c == '$' || c == '€' || c == '£' || c == '¥' || c.isDigit)

/-- Content predicate of the description loop: truthy text longer than 10
characters. -/
def descPred (t : String) : Bool :=
  !t.isEmpty && t.length > 10

/-- Text produced by one candidate inside a resolution loop: the candidate
succeeds when the query matched a node whose trimmed text satisfies the
content predicate; a throwing or non-matching candidate produces nothing. -/
def candidateText (pred : String → Bool) : QueryRes → Option String
  | QueryRes.qfound e =>
    match e.text with
    | some raw =>
      let t := trimStr raw
      if pred t then some t else none
    | none => none
  | _ => none

/-- The shared selector-fallback loop of testProductTitle,
testProductPrice and testProductDescription: candidates are tried in
listed order and the first one that matches a node with satisfying text
wins. -/
def resolveFirst (pred : String → Bool) (q : String → QueryRes) :
    List String → Option (String × String)
  | [] => none
  | sel :: rest =>
    match candidateText pred (q sel) with
    | some t => some (sel, t)
    | none => resolveFirst pred q rest

/-- The loop of testAddToCartButton: the first candidate that matches a
node wins immediately and reports visibility and enabled state; throwing
or non-matching candidates are skipped. -/
def resolveAddToCart (q : String → QueryRes) :
    List String → Option (String × Bool × Bool)
  | [] => none
  | sel :: rest =>
    match q sel with
    | QueryRes.qfound e => some (sel, e.visible, !e.disabled)
    | _ => resolveAddToCart q rest

/-- The loop of testProductImages and testProductVariants: the first
candidate whose query-all returns a positive count wins. -/
def resolveCount (qAll : String → QueryAllRes) :
    List String → Option (String × Nat)
  | [] => none
  | sel :: rest =>
    match qAll sel with
    | QueryAllRes.qcount n => if n > 0 then some (sel, n) else resolveCount qAll rest
    | QueryAllRes.qthrow => resolveCount qAll rest

/-- One entry of the errors or warnings lists of the structural results. -/
structure Issue where
  itype : String
  element : String
  message : String
deriving DecidableEq

/-- The mutable results object of the ProductPageTester class; element
records are flattened into optional fields. -/
structure Results where
  passed : Bool := true
  errors : List Issue := []
  warnings : List Issue := []
  titleEl : Option (String × String) := none
  priceEl : Option (String × String) := none
  descriptionEl : Option String := none
  addToCartEl : Option (String × Bool × Bool) := none
  imagesEl : Option (String × Nat) := none
  variantsEl : Option (String × Nat) := none
  metaTitleEl : Option String := none
  metaDescriptionEl : Option String := none
deriving DecidableEq

/-- Per-platform ordered candidate-selector lists; productPrice is read
with a fallback default when absent. -/
structure SelectorProfile where
  productTitle : List String
  productPrice : Option (List String)
  productDescription : List String
  addToCart : List String
  productImage : List String
  productVariant : List String

/-- The fallback candidate list used when the profile has no productPrice
entry. -/
def priceFallback : List String :=
  ["[data-testid=\"product-price\"]", ".price", "[data-price]"]

/-- The waitForPageLoad stabilization step: it can only add a warning. -/
def waitForPageLoad (pg : PPage) (r : Results) : Results :=
  if pg.loadWarning then
    { r with warnings := r.warnings ++
        [{ itype := "page_load", element := "",
           message := "Page did not reach networkidle state within timeout" }] }
  else r

/-- The testProductTitle check: a critical error when no candidate wins. -/
def testProductTitle (pg : PPage) (sels : List String) (r : Results) : Results :=
  match resolveFirst titlePred pg.q sels with
  | some (sel, t) => { r with titleEl := some (sel, t) }
  | none =>
    { r with
        errors := r.errors ++
          [{ itype := "critical", element := "product_title",
             message := "Product title not found on page" }],
        titleEl := none }

/-- The testProductPrice check: a critical error when no candidate wins. -/
def testProductPrice (pg : PPage) (sels : Option (List String)) (r : Results) :
    Results :=
  let selectors := sels.getD priceFallback
  match resolveFirst pricePred pg.q selectors with
  | some (sel, t) => { r with priceEl := some (sel, t) }
  | none =>
    { r with
        errors := r.errors ++
          [{ itype := "critical", element := "product_price",
             message := "Product price not found on page" }],
        priceEl := none }

/-- The testProductDescription check: a warning when no candidate wins. -/
def testProductDescription (pg : PPage) (sels : List String) (r : Results) :
    Results :=
  match resolveFirst descPred pg.q sels with
  | some (sel, _) => { r with descriptionEl := some sel }
  | none =>
    { r with
        warnings := r.warnings ++
          [{ itype := "warning", element := "product_description",
             message := "Product description not found or too short" }],
        descriptionEl := none }

/-- The testAddToCartButton check: a critical error when the control is
absent or present but invisible, a warning when it is visible but
disabled. -/
def testAddToCartButton (pg : PPage) (sels : List String) (r : Results) :
    Results :=
  match resolveAddToCart pg.q sels with
  | none =>
    { r with
        errors := r.errors ++
          [{ itype := "critical", element := "add_to_cart_button",
             message := "Add to cart button not found on page" }],
        addToCartEl := none }
  | some (sel, visible, enabled) =>
    let r1 := { r with addToCartEl := some (sel, visible, enabled) }
    if !visible then
      { r1 with errors := r1.errors ++
          [{ itype := "critical", element := "add_to_cart_button",
             message := "Add to cart button is not visible" }] }
    else if !enabled then
      { r1 with warnings := r1.warnings ++
          [{ itype := "warning", element := "add_to_cart_button",
             message := "Add to cart button is disabled (product may be out of stock)" }] }
    else r1

/-- The testProductImages presence check: a warning when no candidate
matches any image. -/
def testProductImages (pg : PPage) (sels : List String) (r : Results) :
    Results :=
  match resolveCount pg.qAll sels with
  | some (sel, n) => { r with imagesEl := some (sel, n) }
  | none =>
    { r with
        warnings := r.warnings ++
          [{ itype := "warning", element := "product_images",
             message := "No product images found with standard selectors" }],
        imagesEl := none }

/-- The testProductVariants check: purely informational. -/
def testProductVariants (pg : PPage) (sels : List String) (r : Results) :
    Results :=
  match resolveCount pg.qAll sels with
  | some (sel, n) => { r with variantsEl := some (sel, n) }
  | none => r

/-- The testMetaInformation check: warnings for an absent or short page
title and for an absent meta description. -/
def testMetaInformation (pg : PPage) (r : Results) : Results :=
  let r1 := { r with
      metaTitleEl := if pg.pageTitle.isEmpty then none else some pg.pageTitle,
      metaDescriptionEl :=
        if pg.metaDescription.getD "" == "" then none else pg.metaDescription }
  let r2 :=
    if pg.pageTitle.isEmpty || pg.pageTitle.length < 5 then
      { r1 with warnings := r1.warnings ++
          [{ itype := "warning", element := "meta_title",
             message := "Page title is missing or too short" }] }
    else r1
  if pg.metaDescription.getD "" == "" then
    { r2 with warnings := r2.warnings ++
        [{ itype := "warning", element := "meta_description",
           message := "Meta description is missing" }] }
  else r2

/-- The test method: the full structural checklist followed by the verdict
computation over the accumulated errors list. -/
def test (pg : PPage) (profile : SelectorProfile) : Results :=
  let r0 : Results := {}
  let r1 := waitForPageLoad pg r0
  let r2 := testProductTitle pg profile.productTitle r1
  let r3 := testProductPrice pg profile.productPrice r2
  let r4 := testProductDescription pg profile.productDescription r3
  let r5 := testAddToCartButton pg profile.addToCart r4
  let r6 := testProductImages pg profile.productImage r5
  let r7 := testProductVariants pg profile.productVariant r6
  let r8 := testMetaInformation pg r7
  { r8 with passed := r8.errors.length == 0 }

end ProductPageTester

namespace ImageValidator

/-- Data of one img node as enumerated by getAllImages: source URLs, alt
text, recorded dimensions (naturalWidth falling back to width), the
completion flag and the declared loading strategy. -/
structure ImgNode where
  src : String
  currentSrc : String
  alt : String
  width : Nat
  height : Nat
  complete : Bool
  loading : String := "eager"
deriving DecidableEq

/-- Outcome of the active HEAD-style probe run in page context: either the
evaluated function returned a status and ok flag (with an error message
when the in-page fetch threw), or the evaluation itself threw. -/
inductive ProbeRes where
  | result : Nat → Bool → Option String → ProbeRes
  | evalThrow : String → ProbeRes
deriving DecidableEq

/-- The per-image record assembled by validateImage. -/
structure ImageInfo where
  src : String
  alt : String
  width : Nat
  height : Nat
  loaded : Bool
  status : Option Nat
  error : Option String
deriving DecidableEq

/-- One entry of the missing-alt-text accessibility list. -/
structure MissingAlt where
  src : String
  width : Nat
  height : Nat
deriving DecidableEq

/-- The mutable results object of the ImageValidator class.  loadedImages
is an Int because the final assignment in validate can drive it negative. -/
structure Results where
  passed : Bool := true
  totalImages : Nat := 0
  loadedImages : Int := 0
  failedImages : List ImageInfo := []
  missingAltText : List MissingAlt := []
  images : List ImageInfo := []
deriving DecidableEq

/-- Abstract page handle used by the image auditor: the images enumerated
before the sweep, the intercepted network responses keyed by URL, the
active probe outcome per URL, the document scroll height and the images
enumerated after scrolling to a given offset. -/
structure ImgPage where
  initialImages : List ImgNode
  responses : String → Option Nat
  probe : String → ProbeRes
  scrollHeight : Nat
  imagesAt : Nat → List ImgNode

/-- The src-or-currentSrc fallback applied throughout validateImage. -/
def srcOf (img : ImgNode) : String :=
  if img.src.isEmpty then img.currentSrc else img.src

/-- Lookup of an intercepted response for the image, trying src first and
currentSrc second. -/
def lookupResponse (responses : String → Option Nat) (img : ImgNode) :
    Option Nat :=
  match responses img.src with
  | some st => some st
  | none => responses img.currentSrc

/-- The load-success decision chain of validateImage, in order: the DOM
complete-with-dimensions signal, then a matching intercepted response
status, then the active probe.  The components are the loaded flag, the
recorded status, the recorded error, whether loadedImages is incremented,
and whether the record is pushed onto failedImages by this chain. -/
def loadOutcome (responses : String → Option Nat) (probe : String → ProbeRes)
    (img : ImgNode) : Bool × Option Nat × Option String × Bool × Bool :=
  if img.complete && img.width > 0 && img.height > 0 then
    (true, none, none, true, false)
  else
    match lookupResponse responses img with
    | some st =>
      if st == 200 then (true, some st, none, true, false)
      else (false, some st, some (s!"HTTP {st}"), false, true)
    | none =>
      match probe (srcOf img) with
      | ProbeRes.result st ok err =>
        if ok && st == 200 then (true, some 200, none, true, false)
        else (false, some st, some (err.getD s!"HTTP {st}"), false, true)
      | ProbeRes.evalThrow msg => (false, none, some msg, false, true)

/-- The validateImage method as a transition on the results object.  The
zero-dimension check overwrites the error field of the (aliased) record
and pushes it onto failedImages unless an entry with the same src is
already present. -/
def validateImage (responses : String → Option Nat) (probe : String → ProbeRes)
    (r : Results) (img : ImgNode) : Results :=
  match loadOutcome responses probe img with
  | (loaded, status, err, inc, push) =>
    let zeroDim := img.width == 0 || img.height == 0
    let finalErr := if zeroDim then some "Image has zero dimensions" else err
    let info : ImageInfo :=
      { src := srcOf img, alt := img.alt, width := img.width,
        height := img.height, loaded := loaded, status := status,
        error := finalErr }
    let missingAlt := (trimStr img.alt).isEmpty && img.width > 50 &&
      img.height > 50 && !(startsWithStr img.src "data:")
    let failed1 :=
      if push then r.failedImages ++ [info]
      else if zeroDim && !(r.failedImages.any (fun f => f.src == info.src)) then
        r.failedImages ++ [info]
      else r.failedImages
    { r with
        loadedImages := r.loadedImages + (if inc then 1 else 0),
        failedImages := failed1,
        missingAltText :=
          if missingAlt then
            r.missingAltText ++
              [{ src := srcOf img, width := img.width, height := img.height }]
          else r.missingAltText,
        images := r.images ++ [info] }

/-- Sequential validation of a list of images. -/
def validateList (responses : String → Option Nat) (probe : String → ProbeRes)
    (imgs : List ImgNode) (r : Results) : Results :=
  imgs.foldl (validateImage responses probe) r

/-- The empty response map passed to validateImage during the lazy-load
sweep. -/
def emptyResponses : String → Option Nat := fun _ => none

/-- Offsets visited by the scroll loop: starting at 0 and stepping by the
viewport height while the offset is below the scroll height.  The fuel
argument bounds the recursion; a fuel of scrollHeight is sufficient for
any positive viewport height. -/
def scrollOffsetsAux (sh vh : Nat) : Nat → Nat → List Nat
  | 0, _ => []
  | fuel + 1, scroll =>
    if scroll < sh then scroll :: scrollOffsetsAux sh vh fuel (scroll + vh)
    else []

/-- The offsets visited by the lazy-load scroll loop. -/
def scrollOffsets (sh vh : Nat) : List Nat :=
  scrollOffsetsAux sh vh sh 0

/-- The checkLazyLoadedImages sweep: after each scroll step the images are
re-enumerated and, when more images than results.totalImages are present,
the images from index results.totalImages onward are validated with an
empty response map. -/
def checkLazyLoadedImages (pg : ImgPage) (vh : Nat) (r : Results) : Results :=
  (scrollOffsets pg.scrollHeight vh).foldl
    (fun acc y =>
      let newImages := pg.imagesAt y
      if newImages.length > acc.totalImages then
        validateList emptyResponses pg.probe
          (newImages.drop acc.totalImages) acc
      else acc)
    r

/-- The validate method: initial enumeration, per-image validation, the
lazy-load sweep, then the final verdict and the final loadedImages
assignment. -/
def validate (pg : ImgPage) (vh : Nat) : Results :=
  let images := pg.initialImages
  let r1 : Results := { totalImages := images.length }
  let r2 := validateList pg.responses pg.probe images r1
  let r3 := checkLazyLoadedImages pg vh r2
  { r3 with
      passed := r3.failedImages.length == 0,
      loadedImages := (r3.totalImages : Int) - (r3.failedImages.length : Int) }

end ImageValidator

namespace Runner

/-- The per-page aggregate result assembled by testProductPage. -/
structure PageTestResult where
  url : String
  platform : String
  overallPassed : Bool
  productPage : ProductPageTester.Results
  images : ImageValidator.Results
  errors : ErrorDetector.ErrState

/-- The abstract environment of one fault-free per-page run: the page
handles consumed by the three subsystems and the configuration they read. -/
structure PageEnv where
  pg : ProductPageTester.PPage
  profile : ProductPageTester.SelectorProfile
  imgPage : ImageValidator.ImgPage
  viewportHeight : Nat
  errState : ErrorDetector.ErrState
  loadComplete : Int
  tol : ErrorDetector.Tolerance

/-- The per-page run of testProductPage on the path where all three
subsystems return a result: the three module verdicts are combined by
conjunction into the overall verdict. -/
def testProductPage (url platform : String) (env : PageEnv) : PageTestResult :=
  let productPage := ProductPageTester.test env.pg env.profile
  let images := ImageValidator.validate env.imgPage env.viewportHeight
  let errors := ErrorDetector.detect env.loadComplete env.tol env.errState
  { url := url, platform := platform,
    overallPassed := productPage.passed && images.passed && errors.passed,
    productPage := productPage, images := images, errors := errors }

end Runner

namespace Fixtures

/-- Query function where the first listed selector and a later one both
carry matching title text, and one selector throws. -/
def twoTitles : String → ProductPageTester.QueryRes := fun sel =>
  if sel == "h1.title" then
    ProductPageTester.QueryRes.qfound { text := some "First Title" }
  else if sel == ".later" then
    ProductPageTester.QueryRes.qfound { text := some "Second Title" }
  else if sel == "boom" then ProductPageTester.QueryRes.qthrow
  else ProductPageTester.QueryRes.qnone

/-- Page on which title and price resolve, and the add-to-cart control is
found, visible and disabled. -/
def disabledPage : ProductPageTester.PPage :=
  { q := fun sel =>
      if sel == "h1.title" then
        ProductPageTester.QueryRes.qfound { text := some "Widget" }
      else if sel == ".price" then
        ProductPageTester.QueryRes.qfound { text := some "$19.99" }
      else if sel == "button.add" then
        ProductPageTester.QueryRes.qfound
          { text := none, visible := true, disabled := true }
      else ProductPageTester.QueryRes.qnone,
    qAll := fun _ => ProductPageTester.QueryAllRes.qcount 0,
    pageTitle := "Widget store page",
    metaDescription := some "A widget",
    loadWarning := false }

/-- Selector profile matching the disabled-button page. -/
def disabledProfile : ProductPageTester.SelectorProfile :=
  { productTitle := ["h1.title"], productPrice := some [".price"],
    productDescription := [], addToCart := ["button.add"],
    productImage := [], productVariant := [] }

/-- An image node with zero width. -/
def zeroWidthImg : ImageValidator.ImgNode :=
  { src := "z.png", currentSrc := "z.png", alt := "a widget", width := 0,
    height := 5, complete := true }

/-- An image node with zero dimensions used by the lazy-load fixtures. -/
def lazyImg : ImageValidator.ImgNode :=
  { src := "a.png", currentSrc := "a.png", alt := "", width := 0,
    height := 0, complete := false }

/-- Page with no initially enumerated image, a scroll height of two and a
single image visible after every scroll step. -/
def lazyPage : ImageValidator.ImgPage :=
  { initialImages := [], responses := fun _ => none,
    probe := fun _ => ImageValidator.ProbeRes.evalThrow "probe failed",
    scrollHeight := 2, imagesAt := fun _ => [lazyImg] }

/-- Page with no initially enumerated image and one failing image revealed
by the sweep, driving the final loadedImages count negative. -/
def negativePage : ImageValidator.ImgPage :=
  { initialImages := [], responses := fun _ => none,
    probe := fun _ => ImageValidator.ProbeRes.evalThrow "probe failed",
    scrollHeight := 1, imagesAt := fun _ => [lazyImg] }

end Fixtures

/-! Helper lemmas about the signal classifier. -/

theorem analyzeErrors_append (l1 l2 : List ErrorDetector.ConsoleErr) :
    ErrorDetector.analyzeErrors (l1 ++ l2) =
      ErrorDetector.analyzeErrors l1 ++ ErrorDetector.analyzeErrors l2 := by
  simp [ErrorDetector.analyzeErrors]

theorem detect_passed (lc : Int) (tol : ErrorDetector.Tolerance)
    (s : ErrorDetector.ErrState) :
    (ErrorDetector.detect lc tol s).passed =
      ErrorDetector.checkErrorTolerance
        { s with consoleErrors := ErrorDetector.analyzeErrors s.consoleErrors }
        tol := by
  simp only [ErrorDetector.detect, ErrorDetector.checkPerformanceMetrics]
  split <;> rfl

theorem checkErrorTolerance_fields (s1 s2 : ErrorDetector.ErrState)
    (tol : ErrorDetector.Tolerance)
    (hc : s1.consoleErrors = s2.consoleErrors)
    (hn : s1.networkFailures = s2.networkFailures)
    (hr : s1.resourceFailures = s2.resourceFailures)
    (hw : s1.totalWarnings = s2.totalWarnings) :
    ErrorDetector.checkErrorTolerance s1 tol =
      ErrorDetector.checkErrorTolerance s2 tol := by
  unfold ErrorDetector.checkErrorTolerance
  rw [hc, hn, hr, hw]

/-- C1: for every fault-free per-page run the overall verdict of the
assembled PageTestResult equals the conjunction of the structural verdict,
the image verdict and the signal verdict. -/
theorem claim_overall_conjunction (url platform : String)
    (env : Runner.PageEnv) :
    (Runner.testProductPage url platform env).overallPassed = true ↔
      ((Runner.testProductPage url platform env).productPage.passed = true ∧
       (Runner.testProductPage url platform env).images.passed = true ∧
       (Runner.testProductPage url platform env).errors.passed = true) := by
  simp [Runner.testProductPage, Bool.and_eq_true, and_assoc]

/-- C2: the tolerance verdict passes iff the sum of critical console
errors, critical network failures and critical resource failures is at
most the critical tolerance and the total warning count is at most the
warning tolerance; with tolerances 0 and 5, five warnings pass, six
warnings fail, and one critical signal fails. -/
theorem claim_tolerance_verdict :
    (∀ (s : ErrorDetector.ErrState) (tol : ErrorDetector.Tolerance),
      ErrorDetector.checkErrorTolerance s tol = true ↔
        ((s.consoleErrors.filter
              (fun e => e.severity == some "critical")).length +
            (s.networkFailures.filter
              (fun f => f.severity == some "critical")).length +
            (s.resourceFailures.filter
              (fun f => f.severity == some "critical")).length
              ≤ tol.critical ∧
          s.totalWarnings ≤ tol.warning)) ∧
    ErrorDetector.checkErrorTolerance { totalWarnings := 5 }
      { critical := 0, warning := 5 } = true ∧
    ErrorDetector.checkErrorTolerance { totalWarnings := 6 }
      { critical := 0, warning := 5 } = false ∧
    ErrorDetector.checkErrorTolerance
      { consoleErrors :=
          [ErrorDetector.ConsoleErr.mk "console_error"
            "Uncaught TypeError: boom" (some "critical")],
        totalWarnings := 0 } { critical := 0, warning := 5 } = false := by
  refine ⟨fun s tol => ?_, by decide, by decide, by decide⟩
  simp only [ErrorDetector.checkErrorTolerance]
  split_ifs with h1 h2 <;> simp <;> omega

/-- C2 witness: the verdict theorem instantiated at a concrete state with
three warnings against the default tolerances. -/
theorem claim_tolerance_verdict_witness :
    ErrorDetector.checkErrorTolerance { totalWarnings := 3 }
      { critical := 0, warning := 5 } = true :=
  (claim_tolerance_verdict.1 { totalWarnings := 3 }
    { critical := 0, warning := 5 }).mpr (by refine ⟨?_, ?_⟩ <;> decide)

/-- C7: a console error whose message contains google-analytics in any
letter case is removed by classification and leaves the classifier verdict
unchanged. -/
theorem claim_googleAnalytics_excluded
    (e : ErrorDetector.ConsoleErr) (l1 l2 : List ErrorDetector.ConsoleErr)
    (s : ErrorDetector.ErrState) (lc : Int) (tol : ErrorDetector.Tolerance)
    (h : containsStr (lowerStr e.message) "google-analytics" = true) :
    ErrorDetector.analyzeErrors (l1 ++ e :: l2) =
      ErrorDetector.analyzeErrors (l1 ++ l2) ∧
    (ErrorDetector.detect lc tol
        { s with consoleErrors := l1 ++ e :: l2 }).passed =
      (ErrorDetector.detect lc tol
        { s with consoleErrors := l1 ++ l2 }).passed := by
  have hig : ErrorDetector.isIgnorable e.message = true := by
    simp only [ErrorDetector.isIgnorable, ErrorDetector.ignorablePatterns,
      List.any_cons, List.any_nil, Bool.or_eq_true]
    tauto
  have hmain : ErrorDetector.analyzeErrors (l1 ++ e :: l2) =
      ErrorDetector.analyzeErrors (l1 ++ l2) := by
    simp [ErrorDetector.analyzeErrors, hig]
  refine ⟨hmain, ?_⟩
  rw [detect_passed, detect_passed]
  exact checkErrorTolerance_fields _ _ _ (by simpa using hmain) rfl rfl rfl

/-- C7 witness: the exclusion theorem applied to a concrete mixed-case
google-analytics console error. -/
theorem claim_googleAnalytics_excluded_witness :
    ErrorDetector.analyzeErrors
        ([] ++ ErrorDetector.ConsoleErr.mk "console_error"
          "Google-Analytics script failed to load" none :: []) =
      ErrorDetector.analyzeErrors ([] ++ []) :=
  (claim_googleAnalytics_excluded
    (ErrorDetector.ConsoleErr.mk "console_error"
      "Google-Analytics script failed to load" none) [] [] {} 0
    { critical := 0, warning := 5 } (by decide)).1

/-- C10: an uncaught page exception is appended to the console-error list
and, when its message contains a benign substring, the noise filter
removes it and the classifier verdict is unchanged. -/
theorem claim_pageError_benign_filtered
    (s : ErrorDetector.ErrState) (m : String) (lc : Int)
    (tol : ErrorDetector.Tolerance)
    (h : containsStr (lowerStr m) "analytics" = true ∨
         containsStr (lowerStr m) "facebook" = true ∨
         containsStr (lowerStr m) "tracking" = true) :
    (ErrorDetector.onPageError m s).consoleErrors =
      s.consoleErrors ++ [{ ctype := "page_error", message := m }] ∧
    ErrorDetector.analyzeErrors (ErrorDetector.onPageError m s).consoleErrors =
      ErrorDetector.analyzeErrors s.consoleErrors ∧
    (ErrorDetector.detect lc tol (ErrorDetector.onPageError m s)).passed =
      (ErrorDetector.detect lc tol s).passed := by
  have hig : ErrorDetector.isIgnorable m = true := by
    simp only [ErrorDetector.isIgnorable, ErrorDetector.ignorablePatterns,
      List.any_cons, List.any_nil, Bool.or_eq_true]
    tauto
  have hlist : ErrorDetector.analyzeErrors
      (s.consoleErrors ++ [{ ctype := "page_error", message := m }]) =
      ErrorDetector.analyzeErrors s.consoleErrors := by
    simp [ErrorDetector.analyzeErrors, hig]
  refine ⟨rfl, hlist, ?_⟩
  rw [detect_passed, detect_passed]
  exact checkErrorTolerance_fields _ _ _ (by simpa using hlist) rfl rfl rfl

/-- C10 witness: the filtering theorem applied to a concrete uncaught
exception mentioning a tracking script. -/
theorem claim_pageError_benign_filtered_witness :
    (ErrorDetector.detect 0 { critical := 0, warning := 5 }
        (ErrorDetector.onPageError "Uncaught TypeError in tracking pixel"
          {})).passed =
      (ErrorDetector.detect 0 { critical := 0, warning := 5 }
        ({} : ErrorDetector.ErrState)).passed :=
  (claim_pageError_benign_filtered {} "Uncaught TypeError in tracking pixel"
    0 { critical := 0, warning := 5 } (Or.inr (Or.inr (by decide)))).2.2

/-! Helper lemmas about the selector-fallback resolver. -/

namespace ProductPageTester

theorem candidateText_qthrow (pred : String → Bool) :
    candidateText pred QueryRes.qthrow = none := rfl

theorem resolveFirst_append_fail (pred : String → Bool)
    (q : String → QueryRes) (l1 rest : List String)
    (hfail : ∀ s ∈ l1, candidateText pred (q s) = none) :
    resolveFirst pred q (l1 ++ rest) = resolveFirst pred q rest := by
  induction l1 with
  | nil => rfl
  | cons a l ih =>
    have ha := hfail a (List.mem_cons_self a l)
    simp only [List.cons_append, resolveFirst, ha]
    exact ih (fun s hs => hfail s (List.mem_cons_of_mem a hs))

theorem resolveFirst_cons_win (pred : String → Bool) (q : String → QueryRes)
    (sel t : String) (rest : List String)
    (hwin : candidateText pred (q sel) = some t) :
    resolveFirst pred q (sel :: rest) = some (sel, t) := by
  simp only [resolveFirst, hwin]

theorem resolveFirst_eq_none_iff (pred : String → Bool)
    (q : String → QueryRes) (sels : List String) :
    resolveFirst pred q sels = none ↔
      ∀ s ∈ sels, candidateText pred (q s) = none := by
  induction sels with
  | nil => simp [resolveFirst]
  | cons a l ih =>
    simp only [resolveFirst]
    cases h : candidateText pred (q a) with
    | some t => simp [List.forall_mem_cons, h]
    | none => simp [List.forall_mem_cons, h, ih]

end ProductPageTester

/-- C4: for every ordered candidate list, resolution returns the first
candidate that matches with text satisfying the content predicate of the
element (title, description or price), and the outcome is independent of
the candidates listed after the winner. -/
theorem claim_resolver_first_success
    (pred : String → Bool) (q : String → ProductPageTester.QueryRes)
    (l1 l2 l2' : List String) (sel t : String)
    (_hpred : pred = ProductPageTester.titlePred ∨
             pred = ProductPageTester.descPred ∨
             pred = ProductPageTester.pricePred)
    (hfail : ∀ s ∈ l1, ProductPageTester.candidateText pred (q s) = none)
    (hwin : ProductPageTester.candidateText pred (q sel) = some t) :
    ProductPageTester.resolveFirst pred q (l1 ++ sel :: l2) = some (sel, t) ∧
    ProductPageTester.resolveFirst pred q (l1 ++ sel :: l2) =
      ProductPageTester.resolveFirst pred q (l1 ++ sel :: l2') := by
  have h1 := ProductPageTester.resolveFirst_append_fail pred q l1 (sel :: l2)
    hfail
  have h2 := ProductPageTester.resolveFirst_append_fail pred q l1 (sel :: l2')
    hfail
  have w1 := ProductPageTester.resolveFirst_cons_win pred q sel t l2 hwin
  have w2 := ProductPageTester.resolveFirst_cons_win pred q sel t l2' hwin
  refine ⟨by rw [h1, w1], by rw [h1, w1, h2, w2]⟩

/-- C4 witness: on a concrete page where the second listed selector wins
and the third would also match, resolution returns the second selector. -/
theorem claim_resolver_first_success_witness :
    ProductPageTester.resolveFirst ProductPageTester.titlePred
        Fixtures.twoTitles ["nomatch", "h1.title", ".later"] =
      some ("h1.title", "First Title") :=
  (claim_resolver_first_success ProductPageTester.titlePred Fixtures.twoTitles
    ["nomatch"] [".later"] [] "h1.title" "First Title" (Or.inl rfl)
    (by decide) (by decide)).1

/-- C8: a candidate whose evaluation throws is skipped without aborting
resolution, and the element is reported not found exactly when every
candidate fails. -/
theorem claim_resolver_throw_skipped
    (pred : String → Bool) (q : String → ProductPageTester.QueryRes)
    (sel : String) (rest : List String)
    (hthrow : q sel = ProductPageTester.QueryRes.qthrow) :
    ProductPageTester.resolveFirst pred q (sel :: rest) =
      ProductPageTester.resolveFirst pred q rest ∧
    (ProductPageTester.resolveFirst pred q (sel :: rest) = none ↔
      ∀ s ∈ sel :: rest,
        ProductPageTester.candidateText pred (q s) = none) := by
  have hskip : ProductPageTester.candidateText pred (q sel) = none := by
    rw [hthrow]
    exact ProductPageTester.candidateText_qthrow pred
  refine ⟨?_, ProductPageTester.resolveFirst_eq_none_iff pred q (sel :: rest)⟩
  simp only [ProductPageTester.resolveFirst, hskip]

/-- C8 witness: a concrete throwing selector ahead of a matching one does
not change the resolution outcome. -/
theorem claim_resolver_throw_skipped_witness :
    ProductPageTester.resolveFirst ProductPageTester.titlePred
        Fixtures.twoTitles ["boom", "h1.title"] =
      ProductPageTester.resolveFirst ProductPageTester.titlePred
        Fixtures.twoTitles ["h1.title"] :=
  (claim_resolver_throw_skipped ProductPageTester.titlePred Fixtures.twoTitles
    "boom" ["h1.title"] (by decide)).1

/-! Helper lemmas about the structural validator checklist. -/

namespace ProductPageTester

theorem waitForPageLoad_errors (pg : PPage) (r : Results) :
    (waitForPageLoad pg r).errors = r.errors := by
  unfold waitForPageLoad
  split <;> rfl

theorem waitForPageLoad_warnings (pg : PPage) (r : Results) :
    (waitForPageLoad pg r).warnings =
      r.warnings ++
        (if pg.loadWarning then
          [Issue.mk "page_load" ""
            "Page did not reach networkidle state within timeout"]
        else []) := by
  unfold waitForPageLoad
  split <;> simp

theorem testProductTitle_errors (pg : PPage) (sels : List String)
    (r : Results) :
    (testProductTitle pg sels r).errors =
      r.errors ++
        (if (resolveFirst titlePred pg.q sels).isSome then []
         else [Issue.mk "critical" "product_title"
           "Product title not found on page"]) := by
  unfold testProductTitle
  cases h : resolveFirst titlePred pg.q sels with
  | none => simp [h]
  | some v => obtain ⟨a, b⟩ := v; simp [h]

theorem testProductTitle_warnings (pg : PPage) (sels : List String)
    (r : Results) :
    (testProductTitle pg sels r).warnings = r.warnings := by
  unfold testProductTitle
  cases h : resolveFirst titlePred pg.q sels with
  | none => rfl
  | some v => obtain ⟨a, b⟩ := v; rfl

theorem testProductPrice_errors (pg : PPage) (sels : Option (List String))
    (r : Results) :
    (testProductPrice pg sels r).errors =
      r.errors ++
        (if (resolveFirst pricePred pg.q (sels.getD priceFallback)).isSome then
          []
         else [Issue.mk "critical" "product_price"
           "Product price not found on page"]) := by
  unfold testProductPrice
  cases h : resolveFirst pricePred pg.q (sels.getD priceFallback) with
  | none => simp [h]
  | some v => obtain ⟨a, b⟩ := v; simp [h]

theorem testProductPrice_warnings (pg : PPage) (sels : Option (List String))
    (r : Results) :
    (testProductPrice pg sels r).warnings = r.warnings := by
  unfold testProductPrice
  cases h : resolveFirst pricePred pg.q (sels.getD priceFallback) with
  | none => simp [h]
  | some v => obtain ⟨a, b⟩ := v; simp [h]

theorem testProductDescription_errors (pg : PPage) (sels : List String)
    (r : Results) :
    (testProductDescription pg sels r).errors = r.errors := by
  unfold testProductDescription
  cases h : resolveFirst descPred pg.q sels with
  | none => rfl
  | some v => obtain ⟨a, b⟩ := v; rfl

theorem testProductDescription_warnings (pg : PPage) (sels : List String)
    (r : Results) :
    (testProductDescription pg sels r).warnings =
      r.warnings ++
        (if (resolveFirst descPred pg.q sels).isSome then []
         else [Issue.mk "warning" "product_description"
           "Product description not found or too short"]) := by
  unfold testProductDescription
  cases h : resolveFirst descPred pg.q sels with
  | none => simp [h]
  | some v => obtain ⟨a, b⟩ := v; simp [h]

theorem testAddToCartButton_errors (pg : PPage) (sels : List String)
    (r : Results) :
    (testAddToCartButton pg sels r).errors =
      r.errors ++
        (match resolveAddToCart pg.q sels with
         | none => [Issue.mk "critical" "add_to_cart_button"
             "Add to cart button not found on page"]
         | some (_, visible, _) =>
           if visible then []
           else [Issue.mk "critical" "add_to_cart_button"
             "Add to cart button is not visible"]) := by
  unfold testAddToCartButton
  cases h : resolveAddToCart pg.q sels with
  | none => simp
  | some v =>
    obtain ⟨sel, vis, en⟩ := v
    cases vis <;> cases en <;> simp

theorem testAddToCartButton_warnings (pg : PPage) (sels : List String)
    (r : Results) :
    (testAddToCartButton pg sels r).warnings =
      r.warnings ++
        (match resolveAddToCart pg.q sels with
         | none => []
         | some (_, visible, enabled) =>
           if visible && !enabled then
             [Issue.mk "warning" "add_to_cart_button"
               "Add to cart button is disabled (product may be out of stock)"]
           else []) := by
  unfold testAddToCartButton
  cases h : resolveAddToCart pg.q sels with
  | none => simp
  | some v =>
    obtain ⟨sel, vis, en⟩ := v
    cases vis <;> cases en <;> simp

theorem testProductImages_errors (pg : PPage) (sels : List String)
    (r : Results) :
    (testProductImages pg sels r).errors = r.errors := by
  unfold testProductImages
  cases h : resolveCount pg.qAll sels with
  | none => rfl
  | some v => obtain ⟨a, b⟩ := v; rfl

theorem testProductImages_warnings (pg : PPage) (sels : List String)
    (r : Results) :
    (testProductImages pg sels r).warnings =
      r.warnings ++
        (if (resolveCount pg.qAll sels).isSome then []
         else [Issue.mk "warning" "product_images"
           "No product images found with standard selectors"]) := by
  unfold testProductImages
  cases h : resolveCount pg.qAll sels with
  | none => simp [h]
  | some v => obtain ⟨a, b⟩ := v; simp [h]

theorem testProductVariants_errors (pg : PPage) (sels : List String)
    (r : Results) :
    (testProductVariants pg sels r).errors = r.errors := by
  unfold testProductVariants
  cases h : resolveCount pg.qAll sels with
  | none => rfl
  | some v => obtain ⟨a, b⟩ := v; rfl

theorem testProductVariants_warnings (pg : PPage) (sels : List String)
    (r : Results) :
    (testProductVariants pg sels r).warnings = r.warnings := by
  unfold testProductVariants
  cases h : resolveCount pg.qAll sels with
  | none => rfl
  | some v => obtain ⟨a, b⟩ := v; rfl

theorem testMetaInformation_errors (pg : PPage) (r : Results) :
    (testMetaInformation pg r).errors = r.errors := by
  unfold testMetaInformation
  split_ifs <;> rfl

theorem testMetaInformation_warnings (pg : PPage) (r : Results) :
    (testMetaInformation pg r).warnings =
      r.warnings ++
        (if pg.pageTitle.isEmpty || pg.pageTitle.length < 5 then
          [Issue.mk "warning" "meta_title" "Page title is missing or too short"]
        else []) ++
        (if pg.metaDescription.getD "" == "" then
          [Issue.mk "warning" "meta_description" "Meta description is missing"]
        else []) := by
  unfold testMetaInformation
  split_ifs <;> simp

theorem test_errors (pg : PPage) (profile : SelectorProfile) :
    (test pg profile).errors =
      (if (resolveFirst titlePred pg.q profile.productTitle).isSome then []
       else [Issue.mk "critical" "product_title"
         "Product title not found on page"]) ++
      (if (resolveFirst pricePred pg.q
            (profile.productPrice.getD priceFallback)).isSome then []
       else [Issue.mk "critical" "product_price"
         "Product price not found on page"]) ++
      (match resolveAddToCart pg.q profile.addToCart with
       | none => [Issue.mk "critical" "add_to_cart_button"
           "Add to cart button not found on page"]
       | some (_, visible, _) =>
         if visible then []
         else [Issue.mk "critical" "add_to_cart_button"
           "Add to cart button is not visible"]) := by
  unfold test
  simp only [testMetaInformation_errors, testProductVariants_errors,
    testProductImages_errors, testAddToCartButton_errors,
    testProductDescription_errors, testProductPrice_errors,
    testProductTitle_errors, waitForPageLoad_errors]
  simp [List.append_assoc]

theorem test_warnings (pg : PPage) (profile : SelectorProfile) :
    (test pg profile).warnings =
      (if pg.loadWarning then
        [Issue.mk "page_load" ""
          "Page did not reach networkidle state within timeout"]
       else []) ++
      (if (resolveFirst descPred pg.q profile.productDescription).isSome then
        []
       else [Issue.mk "warning" "product_description"
         "Product description not found or too short"]) ++
      (match resolveAddToCart pg.q profile.addToCart with
       | none => []
       | some (_, visible, enabled) =>
         if visible && !enabled then
           [Issue.mk "warning" "add_to_cart_button"
             "Add to cart button is disabled (product may be out of stock)"]
         else []) ++
      (if (resolveCount pg.qAll profile.productImage).isSome then []
       else [Issue.mk "warning" "product_images"
         "No product images found with standard selectors"]) ++
      (if pg.pageTitle.isEmpty || pg.pageTitle.length < 5 then
        [Issue.mk "warning" "meta_title" "Page title is missing or too short"]
       else []) ++
      (if pg.metaDescription.getD "" == "" then
        [Issue.mk "warning" "meta_description" "Meta description is missing"]
       else []) := by
  unfold test
  simp only [testMetaInformation_warnings, testProductVariants_warnings,
    testProductImages_warnings, testAddToCartButton_warnings,
    testProductDescription_warnings, testProductPrice_warnings,
    testProductTitle_warnings, waitForPageLoad_warnings]
  simp [List.append_assoc]

theorem test_passed_eq (pg : PPage) (profile : SelectorProfile) :
    (test pg profile).passed = ((test pg profile).errors.length == 0) := rfl

end ProductPageTester

/-- C3: the structural verdict is false exactly when title, price or
add-to-cart fails to resolve or the add-to-cart control resolves but is
invisible; a visible disabled add-to-cart control yields only a warning
and leaves the verdict true when title and price resolve. -/
theorem claim_structural_verdict (pg : ProductPageTester.PPage)
    (profile : ProductPageTester.SelectorProfile) :
    ((ProductPageTester.test pg profile).passed = false ↔
      (ProductPageTester.resolveFirst ProductPageTester.titlePred pg.q
          profile.productTitle = none ∨
       ProductPageTester.resolveFirst ProductPageTester.pricePred pg.q
          (profile.productPrice.getD ProductPageTester.priceFallback) = none ∨
       ProductPageTester.resolveAddToCart pg.q profile.addToCart = none ∨
       (∃ sel en, ProductPageTester.resolveAddToCart pg.q profile.addToCart =
          some (sel, false, en)))) ∧
    (∀ sel,
      ProductPageTester.resolveAddToCart pg.q profile.addToCart =
          some (sel, true, false) →
      ProductPageTester.resolveFirst ProductPageTester.titlePred pg.q
          profile.productTitle ≠ none →
      ProductPageTester.resolveFirst ProductPageTester.pricePred pg.q
          (profile.productPrice.getD ProductPageTester.priceFallback) ≠ none →
      (ProductPageTester.test pg profile).passed = true ∧
      ProductPageTester.Issue.mk "warning" "add_to_cart_button"
          "Add to cart button is disabled (product may be out of stock)" ∈
        (ProductPageTester.test pg profile).warnings) := by
  constructor
  · rw [ProductPageTester.test_passed_eq, ProductPageTester.test_errors]
    cases hT : ProductPageTester.resolveFirst ProductPageTester.titlePred pg.q
        profile.productTitle with
    | none => simp
    | some vT =>
      obtain ⟨selT, tT⟩ := vT
      cases hP : ProductPageTester.resolveFirst ProductPageTester.pricePred
          pg.q (profile.productPrice.getD ProductPageTester.priceFallback) with
      | none => simp
      | some vP =>
        obtain ⟨selP, tP⟩ := vP
        cases hA : ProductPageTester.resolveAddToCart pg.q
            profile.addToCart with
        | none => simp
        | some vA =>
          obtain ⟨selA, vis, en⟩ := vA
          cases vis <;> simp
  · intro sel hA hT hP
    obtain ⟨vT, hT'⟩ := Option.ne_none_iff_exists'.mp hT
    obtain ⟨vP, hP'⟩ := Option.ne_none_iff_exists'.mp hP
    constructor
    · rw [ProductPageTester.test_passed_eq, ProductPageTester.test_errors]
      simp [hA, hT', hP']
    · rw [ProductPageTester.test_warnings, hA]
      simp

/-- C3 witness: on the concrete page with a visible disabled add-to-cart
control and resolving title and price, the structural verdict is true. -/
theorem claim_structural_verdict_witness :
    (ProductPageTester.test Fixtures.disabledPage
        Fixtures.disabledProfile).passed = true :=
  ((claim_structural_verdict Fixtures.disabledPage
      Fixtures.disabledProfile).2
    "button.add" (by decide) (by decide) (by decide)).1

/-! Helper lemmas about the image load auditor. -/

namespace ImageValidator

theorem validateImage_totalImages (responses : String → Option Nat)
    (probe : String → ProbeRes) (r : Results) (img : ImgNode) :
    (validateImage responses probe r img).totalImages = r.totalImages := rfl

theorem validateList_totalImages (responses : String → Option Nat)
    (probe : String → ProbeRes) (imgs : List ImgNode) (r : Results) :
    (validateList responses probe imgs r).totalImages = r.totalImages := by
  induction imgs generalizing r with
  | nil => rfl
  | cons img rest ih =>
    simp only [validateList, List.foldl_cons] at *
    rw [ih, validateImage_totalImages]

theorem checkLazy_totalImages (pg : ImgPage) (vh : Nat) (r : Results) :
    (checkLazyLoadedImages pg vh r).totalImages = r.totalImages := by
  unfold checkLazyLoadedImages
  generalize scrollOffsets pg.scrollHeight vh = ys
  induction ys generalizing r with
  | nil => rfl
  | cons y ys ih =>
    simp only [List.foldl_cons]
    rw [ih]
    split
    · exact validateList_totalImages _ _ _ _
    · rfl

theorem validate_totalImages (pg : ImgPage) (vh : Nat) :
    (validate pg vh).totalImages = pg.initialImages.length := by
  unfold validate
  dsimp only
  rw [checkLazy_totalImages, validateList_totalImages]

theorem scrollOffsetsAux_mem_lt (sh vh : Nat) :
    ∀ (fuel s : Nat), ∀ y ∈ scrollOffsetsAux sh vh fuel s, y < sh := by
  intro fuel
  induction fuel with
  | zero =>
    intro s y hy
    simp [scrollOffsetsAux] at hy
  | succ n ih =>
    intro s y hy
    unfold scrollOffsetsAux at hy
    by_cases hs : s < sh
    · rw [if_pos hs] at hy
      rcases List.mem_cons.mp hy with rfl | hy'
      · exact hs
      · exact ih (s + vh) y hy'
    · rw [if_neg hs] at hy
      simp at hy

theorem scrollOffsetsAux_mem_of_lt (sh vh : Nat) :
    ∀ (fuel s j : Nat), j < fuel → s + j * vh < sh →
      s + j * vh ∈ scrollOffsetsAux sh vh fuel s := by
  intro fuel
  induction fuel with
  | zero =>
    intro s j hj _
    exact absurd hj (Nat.not_lt_zero j)
  | succ n ih =>
    intro s j hj hlt
    have hs : s < sh := lt_of_le_of_lt (Nat.le_add_right s (j * vh)) hlt
    unfold scrollOffsetsAux
    rw [if_pos hs]
    cases j with
    | zero => simp
    | succ k =>
      apply List.mem_cons_of_mem
      have heq : s + (k + 1) * vh = s + vh + k * vh := by ring
      rw [heq]
      exact ih (s + vh) k (by omega) (by rw [← heq]; exact hlt)

theorem scrollOffsets_mem (sh vh : Nat) (hvh : 1 ≤ vh) (k : Nat)
    (hk : k * vh < sh) : k * vh ∈ scrollOffsets sh vh := by
  have h1 : k * 1 ≤ k * vh := Nat.mul_le_mul_left k hvh
  have hkfuel : k < sh := by omega
  have hmem := scrollOffsetsAux_mem_of_lt sh vh sh 0 k hkfuel
    (by simpa using hk)
  simpa [scrollOffsets] using hmem

theorem checkLazy_fixed_total (pg : ImgPage) (r : Results) :
    ∀ (ys : List Nat) (acc : Results), acc.totalImages = r.totalImages →
      ys.foldl (fun acc y =>
          if (pg.imagesAt y).length > acc.totalImages then
            validateList emptyResponses pg.probe
              ((pg.imagesAt y).drop acc.totalImages) acc
          else acc) acc =
        ys.foldl (fun acc y =>
          if (pg.imagesAt y).length > r.totalImages then
            validateList emptyResponses pg.probe
              ((pg.imagesAt y).drop r.totalImages) acc
          else acc) acc := by
  intro ys
  induction ys with
  | nil => intro acc _; rfl
  | cons y ys ih =>
    intro acc h
    simp only [List.foldl_cons]
    have hstep : (if (pg.imagesAt y).length > acc.totalImages then
          validateList emptyResponses pg.probe
            ((pg.imagesAt y).drop acc.totalImages) acc
        else acc) =
        (if (pg.imagesAt y).length > r.totalImages then
          validateList emptyResponses pg.probe
            ((pg.imagesAt y).drop r.totalImages) acc
        else acc) := by rw [h]
    rw [hstep]
    apply ih
    split
    · rw [validateList_totalImages]; exact h
    · exact h

end ImageValidator

/-- C5: any image whose recorded width or height is zero ends up recorded
in failedImages, for every completion flag, response map, probe outcome
and prior state. -/
theorem claim_image_zero_dimension_failed
    (responses : String → Option Nat) (probe : String → ImageValidator.ProbeRes)
    (r : ImageValidator.Results) (img : ImageValidator.ImgNode)
    (h : img.width = 0 ∨ img.height = 0) :
    ∃ f ∈ (ImageValidator.validateImage responses probe r img).failedImages,
      f.src = ImageValidator.srcOf img := by
  have hz : (img.width == 0 || img.height == 0) = true := by
    rcases h with h | h <;> simp [h]
  unfold ImageValidator.validateImage
  rcases hLO : ImageValidator.loadOutcome responses probe img with
    ⟨loaded, status, err, inc, push⟩
  dsimp only
  rw [hz]
  cases push with
  | true =>
    rw [if_pos rfl]
    exact ⟨_, List.mem_append_right _ (List.mem_singleton_self _), rfl⟩
  | false =>
    rw [if_neg (by simp)]
    simp only [Bool.true_and]
    by_cases hAny : (r.failedImages.any
        (fun f => f.src == ImageValidator.srcOf img)) = true
    · obtain ⟨f, hf, hbeq⟩ := List.any_eq_true.mp hAny
      rw [if_neg (by simp [hAny])]
      exact ⟨f, hf, by simpa using hbeq⟩
    · rw [Bool.not_eq_true] at hAny
      rw [hAny]
      simp only [Bool.not_false]
      rw [if_pos trivial]
      exact ⟨_, List.mem_append_right _ (List.mem_singleton_self _), rfl⟩

/-- C5 witness: a zero-width image with a 200 response and a successful
probe is still recorded as failed. -/
theorem claim_image_zero_dimension_failed_witness :
    (Fixtures.zeroWidthImg.width = 0 ∨ Fixtures.zeroWidthImg.height = 0) ∧
    ∃ f ∈ (ImageValidator.validateImage (fun _ => some 200)
        (fun _ => ImageValidator.ProbeRes.result 200 true none) {}
        Fixtures.zeroWidthImg).failedImages,
      f.src = ImageValidator.srcOf Fixtures.zeroWidthImg :=
  ⟨Or.inl rfl,
    claim_image_zero_dimension_failed (fun _ => some 200)
      (fun _ => ImageValidator.ProbeRes.result 200 true none) {}
      Fixtures.zeroWidthImg (Or.inl rfl)⟩

/-- C9: on return from validate, loadedImages equals totalImages minus the
length of failedImages, totalImages counts only the pre-sweep enumeration,
and on a page whose sweep reveals a failing image the count is negative. -/
theorem claim_loadedImages_final :
    (∀ (pg : ImageValidator.ImgPage) (vh : Nat),
      (ImageValidator.validate pg vh).loadedImages =
        ((ImageValidator.validate pg vh).totalImages : Int) -
          ((ImageValidator.validate pg vh).failedImages.length : Int) ∧
      (ImageValidator.validate pg vh).totalImages =
        pg.initialImages.length) ∧
    (∃ (pg : ImageValidator.ImgPage) (vh : Nat),
      (ImageValidator.validate pg vh).loadedImages < 0) :=
  ⟨fun pg vh => ⟨rfl, ImageValidator.validate_totalImages pg vh⟩,
    ⟨Fixtures.negativePage, 1, by decide⟩⟩

/-- C6 counterexample: on a page with no initially enumerated image, a
scroll height of two viewports and the same single image visible after
both scroll steps, the sweep validates that image in both steps, so one
newly appeared image is validated twice rather than exactly once. -/
theorem claim_lazy_sweep_counterexample :
    (ImageValidator.validate Fixtures.lazyPage 1).images.map
        ImageValidator.ImageInfo.src = ["a.png", "a.png"] ∧
    (∀ y, Fixtures.lazyPage.imagesAt y = [Fixtures.lazyImg]) :=
  ⟨by decide, fun _ => rfl⟩

/-- C6 amended: every offset visited by the scroll loop is below the full
document scroll height and every viewport multiple below that height is
visited, and after each scroll step the sweep validates exactly the images
at indexes at or beyond the pre-sweep totalImages count, which stays fixed
during the whole sweep, so images appearing in an early step are validated
again in every later step. -/
theorem claim_lazy_sweep_amended (pg : ImageValidator.ImgPage) (vh : Nat)
    (r : ImageValidator.Results) (hvh : 1 ≤ vh) :
    (∀ y ∈ ImageValidator.scrollOffsets pg.scrollHeight vh,
      y < pg.scrollHeight) ∧
    (∀ k, k * vh < pg.scrollHeight →
      k * vh ∈ ImageValidator.scrollOffsets pg.scrollHeight vh) ∧
    ImageValidator.checkLazyLoadedImages pg vh r =
      (ImageValidator.scrollOffsets pg.scrollHeight vh).foldl
        (fun acc y =>
          if (pg.imagesAt y).length > r.totalImages then
            ImageValidator.validateList ImageValidator.emptyResponses pg.probe
              ((pg.imagesAt y).drop r.totalImages) acc
          else acc) r := by
  refine ⟨fun y hy =>
      ImageValidator.scrollOffsetsAux_mem_lt pg.scrollHeight vh _ _ y hy,
    fun k hk => ImageValidator.scrollOffsets_mem pg.scrollHeight vh hvh k hk,
    ?_⟩
  unfold ImageValidator.checkLazyLoadedImages
  exact ImageValidator.checkLazy_fixed_total pg r _ r rfl

/-- C6 amended witness: the amended sweep theorem applied to the concrete
lazy-load page with viewport height one. -/
theorem claim_lazy_sweep_amended_witness :
    (1 ≤ 1) ∧
    ∀ y ∈ ImageValidator.scrollOffsets Fixtures.lazyPage.scrollHeight 1,
      y < Fixtures.lazyPage.scrollHeight :=
  ⟨le_refl 1,
    (claim_lazy_sweep_amended Fixtures.lazyPage 1 {} (le_refl 1)).1⟩
